import Mathlib

/-!
Verification development for the scroll-tech/rpc-gateway repository.

The Go source is shallowly embedded into Lean:

* `Node` embeds `node/client_provider.go` (the `clientProvider` with its
  `registerGroup` / `getClient` operations).  The group-to-pool map
  `clients map[Group]*util.ConcurrentMap` is modelled as an association
  list `groups : List (Group × Nat)` from group to a pool identifier,
  together with a heap `pools : List (Nat × List (NodeName × C))`; the
  indirection through pool identifiers models Go's pointer identity of
  the per-group `ConcurrentMap` objects.  The injected client factory is
  modelled with an explicit invocation counter threaded through the
  provider state, so that stateful factories (fail once, then succeed)
  and the exact number of factory invocations are expressible.
* `Rpc` embeds `rpc/server.go` (the per-space server assembly functions).
* `Mysql` embeds `store/mysql/store.go` (startup database bootstrap and
  logs-table partitioning) and `store/mysql/store_map_epoch_block.go`
  (the epoch to block-range mapping store).

External effects (database calls, network connection attempts) are
embedded as explicit inputs: each external call's outcome is a field of
an environment record, and the embedded function consumes those
outcomes exactly in source order.
-/

/-- Association-list lookup, keyed by decidable equality.  Models a Go
map read `m[k]` returning `(value, ok)`. -/
def assocLookup {α β : Type} [DecidableEq α] (m : List (α × β)) (k : α) : Option β :=
  match m with
  | [] => none
  | (k2, v) :: rest => if k = k2 then some v else assocLookup rest k

/-- Association-list update, keyed by decidable equality.  Models a Go
map write `m[k] = v` (replace if present, append otherwise). -/
def assocSet {α β : Type} [DecidableEq α] (m : List (α × β)) (k : α) (v : β) :
    List (α × β) :=
  match m with
  | [] => [(k, v)]
  | (k2, v2) :: rest => if k = k2 then (k2, v) :: rest else (k2, v2) :: assocSet rest k v

namespace Node

/-- `node.Group` is a string-typed logical node group identifier. -/
abbrev Group := String

/-- Canonical node name derived from a node URL. -/
abbrev NodeName := String

/-- Errors that `clientProvider.getClient` can return.
`clientUnavailable` embeds `ErrClientUnavailable` (`errors.New("no full
node available")`); `unknownGroup` embeds `errors.Errorf("Unknown node
group %v", group)`; `badConnection` embeds
`errors.WithMessage(err, "bad full node connection")`, wrapping the
factory's underlying cause. -/
inductive ProviderError (E : Type) where
  | unknownGroup (g : Group)
  | clientUnavailable
  | badConnection (cause : E)
deriving DecidableEq, Repr

/-- Modelled from the spec: `rpc.Url2NodeName` is not under `src/`.  The
spec requires only that it derive a stable node-name from the URL — a
pure function where the same URL always yields the same name.  It is
modelled as the identity function, which satisfies exactly that
contract. -/
def Url2NodeName (url : String) : String := url

/-- State of a `clientProvider` (`node/client_provider.go`), for clients
of type `C` and factory errors of type `E`.  `groups` is the
`clients map[Group]*util.ConcurrentMap` field, mapping each group to the
identifier of its pool in the `pools` heap; `invocations` counts factory
invocations so far, and the factory receives that count so that stateful
factories are expressible. -/
structure Provider (C E : Type) where
  route : Group → String → String
  factory : Nat → String → Except E C
  groups : List (Group × Nat)
  pools : List (Nat × List (NodeName × C))
  nextId : Nat
  invocations : Nat

/-- The pool (node-name to client map) a pool identifier refers to. -/
def poolOf {C E : Type} (p : Provider C E) (pid : Nat) : List (NodeName × C) :=
  (assocLookup p.pools pid).getD []

/-- Modelled from the spec: sequential semantics of
`util.ConcurrentMap.LoadOrStoreFnErr`, which is not under `src/`.  Per
the spec it atomically loads the cached value for `k` if present
(`loaded = true`, no factory call); otherwise it invokes the factory
once: on success it stores and returns the new value (`loaded = false`),
on error it returns the error and stores nothing, leaving the slot empty
for a later retry. -/
def loadOrStoreFnErr {C E : Type} (m : List (NodeName × C)) (k : NodeName)
    (f : Unit → Except E C) : Except E C × Bool × List (NodeName × C) :=
  match assocLookup m k with
  | some v => (Except.ok v, true, m)
  | none =>
    match f () with
    | Except.ok v => (Except.ok v, false, assocSet m k v)
    | Except.error e => (Except.error e, false, m)

/-- `clientProvider.registerGroup`: if the group is absent (checked,
then re-checked under the mutex), associate a fresh empty pool with it;
return the group's pool identifier together with the new state. -/
def registerGroup {C E : Type} (p : Provider C E) (g : Group) : Nat × Provider C E :=
  match assocLookup p.groups g with
  | some pid => (pid, p)
  | none =>
      (p.nextId,
       { p with
         groups := p.groups ++ [(g, p.nextId)]
         pools := p.pools ++ [(p.nextId, [])]
         nextId := p.nextId + 1 })

/-- `n` successive `registerGroup` calls for the same group; returns the
last call's result. -/
def registerN {C E : Type} (p : Provider C E) (g : Group) : Nat → Nat × Provider C E
  | 0 => (0, p)
  | 1 => registerGroup p g
  | Nat.succ (Nat.succ k) => registerGroup (registerN p g (Nat.succ k)).2 g

/-- `clientProvider.getClient`: look up the group's pool (unknown group
fails), route to a URL (empty URL fails with `clientUnavailable`),
derive the node name, then load-or-create the client through the pool.
Returns `(result, new state, factory invocations, route invocations)`
for this single call. -/
def getClient {C E : Type} (p : Provider C E) (key : String) (g : Group) :
    Except (ProviderError E) C × Provider C E × Nat × Nat :=
  match assocLookup p.groups g with
  | none => (Except.error (ProviderError.unknownGroup g), p, 0, 0)
  | some pid =>
    if p.route g key = "" then
      (Except.error ProviderError.clientUnavailable, p, 0, 1)
    else
      match loadOrStoreFnErr (poolOf p pid) (Url2NodeName (p.route g key))
          (fun _ => p.factory p.invocations (p.route g key)) with
      | (Except.error e, _, _) =>
        (Except.error (ProviderError.badConnection e),
         { p with invocations := p.invocations + 1 }, 1, 1)
      | (Except.ok v, true, _) => (Except.ok v, p, 0, 1)
      | (Except.ok v, false, pool2) =>
        (Except.ok v,
         { p with
           pools := assocSet p.pools pid pool2
           invocations := p.invocations + 1 }, 1, 1)

/-- Wrap a factory error as the provider's `badConnection` error,
keeping the underlying cause. -/
def wrapBadConnection {C E : Type} : Except E C → Except (ProviderError E) C
  | Except.ok v => Except.ok v
  | Except.error e => Except.error (ProviderError.badConnection e)

/-- Modelled from the spec: the outcome of `n` overlapping
`LoadOrStoreFnErr` calls on the same key of a `util.ConcurrentMap`
(which is not under `src/`).  Per the spec's invariant, at most one
in-flight creation per key is started, and concurrent callers while the
creation is in flight all receive the same eventual result (value or
error) without triggering a duplicate creation.  Returns the result
observed by each of the `n` callers, the newly stored value (if a
creation succeeded), and the number of factory invocations. -/
def concurrentLoadOrStore {C E : Type} (cached : Option C) (outcome : Except E C)
    (n : Nat) : List (Except E C) × Option C × Nat :=
  match cached with
  | some c => (List.replicate n (Except.ok c), none, 0)
  | none =>
    if n = 0 then ([], none, 0)
    else
      match outcome with
      | Except.ok c => (List.replicate n (Except.ok c), some c, 1)
      | Except.error e => (List.replicate n (Except.error e), none, 1)

/-- `n` concurrent `getClient` calls with the same key and group (hence
routed to the same URL).  The group lookup and `Router.Route` are pure
reads; the single linearization point is the pool's load-or-create,
whose concurrent semantics is `concurrentLoadOrStore`.  Returns each
caller's result, the new provider state, and the number of factory
invocations performed by the whole batch. -/
def getClientConcurrent {C E : Type} (p : Provider C E) (key : String) (g : Group)
    (n : Nat) : List (Except (ProviderError E) C) × Provider C E × Nat :=
  match assocLookup p.groups g with
  | none => (List.replicate n (Except.error (ProviderError.unknownGroup g)), p, 0)
  | some pid =>
    if p.route g key = "" then
      (List.replicate n (Except.error ProviderError.clientUnavailable), p, 0)
    else
      match concurrentLoadOrStore
          (assocLookup (poolOf p pid) (Url2NodeName (p.route g key)))
          (p.factory p.invocations (p.route g key)) n with
      | (rs, stored, cnt) =>
        (rs.map wrapBadConnection,
         { p with
           pools :=
             match stored with
             | some c =>
               assocSet p.pools pid
                 (assocSet (poolOf p pid) (Url2NodeName (p.route g key)) c)
             | none => p.pools
           invocations := p.invocations + cnt },
         cnt)

end Node

namespace Rpc

/-- Modelled from the spec: an RPC API module descriptor (the `API`
struct is not under `src/`).  Per the spec, server assembly needs each
module's name and whether it is marked publicly exposable. -/
structure API where
  name : String
  isPublic : Bool
deriving DecidableEq, Repr

/-- Modelled from the spec: the middleware chain attached at server
assembly (`httpMiddleware` is not under `src/`).  Per the spec it is a
rate limiter keyed to a space's registry plus the space's client
provider for identity-aware limiting; both collaborators are modelled by
name. -/
inductive Middleware where
  | http (registry : String) (provider : String)
deriving DecidableEq, Repr

/-- Service name constant `nativeSpaceRpcServerName` from `rpc/server.go`. -/
def nativeSpaceRpcServerName : String := "core_space_rpc"

/-- Service name constant `evmSpaceRpcServerName` from `rpc/server.go`. -/
def evmSpaceRpcServerName : String := "evm_space_rpc"

/-- Service name constant `nativeSpaceBridgeRpcServerName` from `rpc/server.go`. -/
def nativeSpaceBridgeRpcServerName : String := "core_space_bridge_rpc"

/-- A constructed RPC server: its fixed service name, the APIs it
exposes, and the middlewares attached to it. -/
structure Server where
  name : String
  apis : List API
  middlewares : List Middleware
deriving DecidableEq, Repr

/-- Modelled from the spec: `rpc.MustNewServer` (not under `src/`)
constructs a named server from the service identifier, the exposed
APIs, and the variadic list of middlewares passed at the call site. -/
def MustNewServer (name : String) (apis : List API) (mws : List Middleware) : Server :=
  { name := name, apis := apis, middlewares := mws }

/-- Modelled from the spec: `filterExposedApis` (not under `src/`).  Per
the spec: if the configured allow-list is non-empty, keep only modules
whose name is in the list and fail (fatal at startup) if the list
references an unknown module name; if the list is empty, keep only
modules marked as publicly exposable. -/
def filterExposedApis (allApis : List API) (exposedModules : List String) :
    Except String (List API) :=
  if exposedModules.isEmpty then
    Except.ok (allApis.filter (fun a => a.isPublic))
  else if exposedModules.all (fun m => allApis.any (fun a => a.name == m)) then
    Except.ok (allApis.filter (fun a => exposedModules.contains a.name))
  else
    Except.error "unknown exposed module"

/-- `MustNewNativeSpaceServer` from `rpc/server.go`: filter the native
space APIs by the exposed-module list (a filter error is a fatal startup
error, modelled as `Except.error`), then build the server named
`core_space_rpc` with the HTTP middleware chain
`httpMiddleware(rate.DefaultRegistryCfx, clientProvider)` attached.  The
enumeration `nativeSpaceApis` is not under `src/`, so the full API set
is taken as an argument. -/
def MustNewNativeSpaceServer (allApis : List API) (exposedModules : List String) :
    Except String Server :=
  match filterExposedApis allApis exposedModules with
  | Except.error e => Except.error e
  | Except.ok exposedApis =>
    Except.ok (MustNewServer nativeSpaceRpcServerName exposedApis
      [Middleware.http "DefaultRegistryCfx" "CfxClientProvider"])

/-- `MustNewEvmSpaceServer` from `rpc/server.go`: `evmSpaceApis` may
itself fail (fatal), then the exposed-module filter is applied (fatal on
error), and the server named `evm_space_rpc` is built with the HTTP
middleware chain `httpMiddleware(rate.DefaultRegistryEth,
clientProvider)` attached. -/
def MustNewEvmSpaceServer (allApisRes : Except String (List API))
    (exposedModules : List String) : Except String Server :=
  match allApisRes with
  | Except.error e => Except.error e
  | Except.ok allApis =>
    match filterExposedApis allApis exposedModules with
    | Except.error e => Except.error e
    | Except.ok exposedApis =>
      Except.ok (MustNewServer evmSpaceRpcServerName exposedApis
        [Middleware.http "DefaultRegistryEth" "EthClientProvider"])

/-- `MustNewNativeSpaceBridgeServer` from `rpc/server.go`:
`nativeSpaceBridgeApis` may fail (fatal), then the exposed-module filter
is applied (fatal on error), and the server named
`core_space_bridge_rpc` is built.  Note the source calls
`rpc.MustNewServer(nativeSpaceBridgeRpcServerName, exposedApis)` with no
middleware argument, so no middleware chain is attached. -/
def MustNewNativeSpaceBridgeServer (allApisRes : Except String (List API))
    (exposedModules : List String) : Except String Server :=
  match allApisRes with
  | Except.error e => Except.error e
  | Except.ok allApis =>
    match filterExposedApis allApis exposedModules with
    | Except.error e => Except.error e
    | Except.ok exposedApis =>
      Except.ok (MustNewServer nativeSpaceBridgeRpcServerName exposedApis [])

end Rpc

namespace Mysql

/-- Outcome of a startup (`Must...`) function: either the process was
terminated by `logrus.Fatal` with the given message, or the function
returned normally with a value. -/
inductive Startup (A : Type) where
  | fatal (msg : String)
  | ok (val : A)
deriving DecidableEq, Repr

/-- Outcomes of the external database calls made during startup by
`Config.MustOpenOrCreate` and `Config.mustCreateDatabaseIfAbsent`
(`store/mysql/store.go`), in source order.  Each `...Err` field is true
iff the corresponding external call fails. -/
structure DbEnv where
  /-- `gorm.Open` fails inside `mustNewDB("")` during database bootstrap. -/
  openErrBootstrap : Bool
  /-- `db.DB()` fails inside `mustCreateDatabaseIfAbsent`. -/
  dbHandleErrBootstrap : Bool
  /-- the `SHOW DATABASES LIKE ...` query fails. -/
  showDatabasesErr : Bool
  /-- the `SHOW DATABASES LIKE ...` query returns a row. -/
  databaseExists : Bool
  /-- the `CREATE DATABASE IF NOT EXISTS ...` statement fails. -/
  createDatabaseErr : Bool
  /-- `gorm.Open` fails inside `mustNewDB(config.Database)`. -/
  openErrMain : Bool
  /-- `Migrator().CreateTable(...)` fails. -/
  createTablesErr : Bool
  /-- `initLogsPartitions` fails. -/
  partitionsErr : Bool
  /-- `db.DB()` fails inside `MustOpenOrCreate`. -/
  dbHandleErrMain : Bool
deriving DecidableEq, Repr

/-- `Config.mustNewDB` (`store/mysql/store.go`): opens a gorm database
handle; on `gorm.Open` error it calls `logrus.Fatal("Failed to open
mysql")`. -/
def mustNewDB (openErr : Bool) : Startup Unit :=
  if openErr then Startup.fatal "Failed to open mysql" else Startup.ok ()

/-- `Config.mustCreateDatabaseIfAbsent` (`store/mysql/store.go`): opens
a handle without a database name; if `db.DB()` errs it returns `false`
(the error is not treated as fatal and the function returns as if the
database already existed); otherwise it queries `SHOW DATABASES`
(fatal on error), returns `false` if the database exists, else creates
it (fatal on error) and returns `true`. -/
def mustCreateDatabaseIfAbsent (env : DbEnv) : Startup Bool :=
  match mustNewDB env.openErrBootstrap with
  | Startup.fatal m => Startup.fatal m
  | Startup.ok _ =>
    if env.dbHandleErrBootstrap then Startup.ok false
    else if env.showDatabasesErr then Startup.fatal "Failed to query databases"
    else if env.databaseExists then Startup.ok false
    else if env.createDatabaseErr then Startup.fatal "Failed to create database"
    else Startup.ok true

/-- `Config.MustOpenOrCreate` (`store/mysql/store.go`): bootstrap the
database if absent, open it, and — only when it was newly created —
create the tables and the logs partitions (each fatal on error); finally
obtain the underlying handle (fatal on error) and return the store. -/
def MustOpenOrCreate (env : DbEnv) : Startup Unit :=
  match mustCreateDatabaseIfAbsent env with
  | Startup.fatal m => Startup.fatal m
  | Startup.ok newCreated =>
    match mustNewDB env.openErrMain with
    | Startup.fatal m => Startup.fatal m
    | Startup.ok _ =>
      if newCreated && env.createTablesErr then
        Startup.fatal "Failed to create tables"
      else if newCreated && env.partitionsErr then
        Startup.fatal "Failed to init logs table partitions"
      else if env.dbHandleErrMain then
        Startup.fatal "Failed to init mysql db"
      else Startup.ok ()

/-- Header line of the logs-partitioning statement built by
`initLogsPartitions`. -/
def LogsPartitionHeader : String := "ALTER TABLE logs PARTITION BY RANGE (id)("

/-- Upper bound of logs partition `i`: `(i+1)*LogsTablePartitionRangeSize`. -/
def logsPartitionBound (i rangeSize : Nat) : Nat := (i + 1) * rangeSize

/-- The `PARTITION logs<i> VALUES LESS THAN (<bound>),` line built in
the loop body of `initLogsPartitions`. -/
def logsPartitionLine (i rangeSize : Nat) : String :=
  "PARTITION logs" ++ toString i ++ " VALUES LESS THAN (" ++
    toString (logsPartitionBound i rangeSize) ++ "),"

/-- The final overflow partition line of `initLogsPartitions`. -/
def logsOverflowLine : String := "PARTITION logsow VALUES LESS THAN MAXVALUE);"

/-- The lines of the `ALTER TABLE` statement built by
`initLogsPartitions` (`store/mysql/store.go`), parametrised by the
constants `LogsTablePartitionsNum` and `LogsTablePartitionRangeSize`
(whose defining declarations are not under `src/`): the header, one
partition line per `i` below the partition count appended in loop
order, then the overflow line. -/
def initLogsPartitionsLines (partitionsNum rangeSize : Nat) : List String :=
  ((List.range partitionsNum).foldl
    (fun acc i => acc ++ [logsPartitionLine i rangeSize])
    [LogsPartitionHeader]) ++ [logsOverflowLine]

/-- The full SQL text executed by `initLogsPartitions`: the lines joined
with newlines. -/
def initLogsPartitionsSql (partitionsNum rangeSize : Nat) : String :=
  String.intercalate "\x0a" (initLogsPartitionsLines partitionsNum rangeSize)

/-- A block of an epoch, as read by `epochBlockMapStore.Pushn`: its
block number (`BlockNumber.ToInt().Uint64()`) and hash string. -/
structure Block where
  BlockNumber : Nat
  Hash : String
deriving DecidableEq, Repr

/-- `store.EpochData`, restricted to the fields `Pushn` reads: the epoch
number and the epoch's blocks. -/
structure EpochData where
  Number : Nat
  Blocks : List Block
deriving DecidableEq, Repr

/-- The `epochBlockMap` record (`store/mysql/store_map_epoch_block.go`)
built by `Pushn` for each epoch. -/
structure epochBlockMap where
  Epoch : Nat
  BnMin : Nat
  BnMax : Nat
  PivotHash : String
deriving DecidableEq, Repr

/-- `defaultBatchSizeMappingInsert` from `store_map_epoch_block.go`. -/
def defaultBatchSizeMappingInsert : Nat := 1000

/-- Last element of a block list, if any. -/
def lastBlock : List Block → Option Block
  | [] => none
  | [b] => some b
  | _ :: b :: rest => lastBlock (b :: rest)

/-- Modelled from the spec: `store.EpochData.GetPivotBlock` is not under
`src/`.  It returns the epoch's pivot block — the last element of
`Blocks` — or nothing when the epoch has no blocks (in which case the Go
code panics on the unguarded index). -/
def GetPivotBlock (d : EpochData) : Option Block := lastBlock d.Blocks

/-- The loop body of `Pushn`: one `epochBlockMap` record per
`EpochData`, in order.  Reading the pivot block or `Blocks[0]` of an
epoch with no blocks is an unguarded index access, embedded as a
runtime-panic error. -/
def buildMappings : List EpochData → Except String (List epochBlockMap)
  | [] => Except.ok []
  | d :: rest =>
    match GetPivotBlock d, d.Blocks.head? with
    | some pivot, some b0 =>
      match buildMappings rest with
      | Except.ok ms =>
        Except.ok ({ Epoch := d.Number, BnMin := b0.BlockNumber,
                     BnMax := pivot.BlockNumber, PivotHash := pivot.Hash } :: ms)
      | Except.error m => Except.error m
    | _, _ => Except.error "runtime error: index out of range"

/-- Observable outcome of `epochBlockMapStore.Pushn`: a panic from an
unguarded index, a nil return with no database write, or a single
`CreateInBatches` write of the built records with the configured batch
size. -/
inductive PushnResult where
  | panicked (msg : String)
  | noWrite
  | wrote (mappings : List epochBlockMap) (batchSize : Nat)
deriving DecidableEq, Repr

/-- `epochBlockMapStore.Pushn`
(`store/mysql/store_map_epoch_block.go`): build one mapping record per
epoch datum (panicking on an epoch with no blocks), return nil without
touching the transaction when no records were built, otherwise write
them with `CreateInBatches(mappings, defaultBatchSizeMappingInsert)`. -/
def Pushn (dataSlice : List EpochData) : PushnResult :=
  match buildMappings dataSlice with
  | Except.error m => PushnResult.panicked m
  | Except.ok [] => PushnResult.noWrite
  | Except.ok ms => PushnResult.wrote ms defaultBatchSizeMappingInsert

/-- Default block used only to totalise `mappingOf` below. -/
def blockDefault : Block := { BlockNumber := 0, Hash := "" }

/-- The record `Pushn` builds for an epoch with at least one block:
`Epoch` is the epoch number, `BnMin` the first block's number, `BnMax`
the pivot (last) block's number, `PivotHash` the pivot block's hash. -/
def mappingOf (d : EpochData) : epochBlockMap :=
  { Epoch := d.Number
    BnMin := (d.Blocks.headD blockDefault).BlockNumber
    BnMax := ((lastBlock d.Blocks).getD blockDefault).BlockNumber
    PivotHash := ((lastBlock d.Blocks).getD blockDefault).Hash }

end Mysql

namespace Examples

/-- A concrete client factory: fails on its first invocation, succeeds
with client `42` afterwards. -/
def failOnceFactory : Nat → String → Except String Nat :=
  fun n _ => if n = 0 then Except.error "dial tcp: connection refused" else Except.ok 42

/-- A provider with one registered group `"cfxhttp"` whose router always
routes to `"http://node1"` and whose factory always succeeds with
client `7`. -/
def pOk : Node.Provider Nat String :=
  { route := fun _ _ => "http://node1"
    factory := fun _ _ => Except.ok 7
    groups := [("cfxhttp", 0)]
    pools := [(0, [])]
    nextId := 1
    invocations := 0 }

/-- The same provider but with a router that returns the empty URL for
every key. -/
def pNoRoute : Node.Provider Nat String :=
  { pOk with route := fun _ _ => "" }

/-- The same provider but with the fail-once factory. -/
def pFailOnce : Node.Provider Nat String :=
  { pOk with factory := failOnceFactory }

/-- A concrete API module set: `cfx` and `txpool` are public, `trace`
is not. -/
def demoApis : List Rpc.API :=
  [{ name := "cfx", isPublic := true },
   { name := "txpool", isPublic := true },
   { name := "trace", isPublic := false }]

/-- A database environment where every external call succeeds except
`db.DB()` inside `mustCreateDatabaseIfAbsent`, and the database does not
yet exist. -/
def envSwallowed : Mysql.DbEnv :=
  { openErrBootstrap := false, dbHandleErrBootstrap := true,
    showDatabasesErr := false, databaseExists := false,
    createDatabaseErr := false, openErrMain := false,
    createTablesErr := false, partitionsErr := false,
    dbHandleErrMain := false }

/-- A database environment where the only failing call is `db.DB()` on
the main open path inside `MustOpenOrCreate`. -/
def envHandleErrMain : Mysql.DbEnv :=
  { envSwallowed with dbHandleErrBootstrap := false, dbHandleErrMain := true }

/-- Concrete epoch data: epoch 5 with two blocks. -/
def demoEpoch : Mysql.EpochData :=
  { Number := 5
    Blocks := [{ BlockNumber := 1, Hash := "h1" }, { BlockNumber := 2, Hash := "h2" }] }

end Examples

/-! Helper lemmas. -/

theorem assocLookup_append_self {α β : Type} [DecidableEq α] (m : List (α × β)) (k : α)
    (v : β) (h : assocLookup m k = none) : assocLookup (m ++ [(k, v)]) k = some v := by
  induction m with
  | nil => simp [assocLookup]
  | cons hd tl ih =>
    obtain ⟨k2, v2⟩ := hd
    by_cases hk : k = k2
    · simp [assocLookup, hk] at h
    · simp only [assocLookup, if_neg hk, List.cons_append] at h ⊢
      exact ih h

theorem getClient_groups_eq {C E : Type} (p : Node.Provider C E) (key : String)
    (g : Node.Group) : ((Node.getClient p key g).2.1).groups = p.groups := by
  unfold Node.getClient
  cases assocLookup p.groups g with
  | none => rfl
  | some pid =>
    by_cases hu : p.route g key = ""
    · simp [hu]
    · simp only [if_neg hu]
      rcases hl : Node.loadOrStoreFnErr (Node.poolOf p pid)
          (Node.Url2NodeName (p.route g key))
          (fun _ => p.factory p.invocations (p.route g key)) with ⟨res, loaded, pool2⟩
      cases res with
      | error e => rfl
      | ok v => cases loaded <;> rfl

theorem registerGroup_lookup {C E : Type} (p : Node.Provider C E) (g : Node.Group) :
    assocLookup ((Node.registerGroup p g).2).groups g = some (Node.registerGroup p g).1 := by
  unfold Node.registerGroup
  cases h : assocLookup p.groups g with
  | some pid => exact h
  | none => exact assocLookup_append_self p.groups g p.nextId h

theorem registerGroup_idem {C E : Type} (p : Node.Provider C E) (g : Node.Group) :
    Node.registerGroup (Node.registerGroup p g).2 g = Node.registerGroup p g := by
  have hl := registerGroup_lookup p g
  conv_lhs => rw [Node.registerGroup]
  rw [hl]

theorem registerN_eq {C E : Type} (p : Node.Provider C E) (g : Node.Group) :
    ∀ n, 1 ≤ n → Node.registerN p g n = Node.registerGroup p g
  | 1, _ => rfl
  | Nat.succ (Nat.succ k), _ => by
    show Node.registerGroup (Node.registerN p g (Nat.succ k)).2 g = Node.registerGroup p g
    rw [registerN_eq p g (Nat.succ k) (Nat.le_add_left 1 k)]
    exact registerGroup_idem p g

theorem foldl_push_eq_append_map {α β : Type} (f : α → β) :
    ∀ (l : List α) (init : List β),
      l.foldl (fun acc i => acc ++ [f i]) init = init ++ l.map f
  | [], init => by simp
  | a :: l, init => by
    simp only [List.foldl_cons, List.map_cons]
    rw [foldl_push_eq_append_map f l (init ++ [f a])]
    simp

theorem lastBlock_cons_isSome (b : Mysql.Block) (bs : List Mysql.Block) :
    ∃ x, Mysql.lastBlock (b :: bs) = some x := by
  induction bs generalizing b with
  | nil => exact ⟨b, rfl⟩
  | cons b2 bs ih => exact ih b2

theorem buildMappings_ok :
    ∀ ds : List Mysql.EpochData, (∀ d ∈ ds, d.Blocks ≠ []) →
      Mysql.buildMappings ds = Except.ok (ds.map Mysql.mappingOf)
  | [], _ => rfl
  | d :: rest, h => by
    have hd : d.Blocks ≠ [] := h d (List.mem_cons_self d rest)
    have hrest := buildMappings_ok rest (fun x hx => h x (List.mem_cons_of_mem d hx))
    rcases hb : d.Blocks with _ | ⟨b, bs⟩
    · exact absurd hb hd
    · obtain ⟨L, hL⟩ := lastBlock_cons_isSome b bs
      simp only [Mysql.buildMappings, Mysql.GetPivotBlock, hb, hL, List.head?_cons, hrest,
        List.map_cons]
      simp [Mysql.mappingOf, hb, hL]

theorem buildMappings_panics :
    ∀ ds : List Mysql.EpochData, (∃ d ∈ ds, d.Blocks = []) →
      Mysql.buildMappings ds = Except.error "runtime error: index out of range"
  | [], h => by simp at h
  | d :: rest, h => by
    rcases hb : d.Blocks with _ | ⟨b, bs⟩
    · simp [Mysql.buildMappings, Mysql.GetPivotBlock, hb, Mysql.lastBlock]
    · have hrest : ∃ x ∈ rest, x.Blocks = [] := by
        rcases h with ⟨x, hx, hxe⟩
        rcases List.mem_cons.mp hx with hxd | hxr
        · rw [hxd] at hxe; rw [hxe] at hb; cases hb
        · exact ⟨x, hxr, hxe⟩
      obtain ⟨L, hL⟩ := lastBlock_cons_isSome b bs
      simp [Mysql.buildMappings, Mysql.GetPivotBlock, hb, hL,
        buildMappings_panics rest hrest]

/-! Claim theorems. -/

/-- Claim C1: for a fixed node-name, when `n` concurrent `getClient`
calls all route to the same URL and the node is not yet cached, the
factory is invoked exactly once and all `n` callers observe the same
outcome (the same client or the same error); no concurrent caller
triggers a duplicate creation while one is in flight. -/
theorem C1_at_most_one_creation {C E : Type} (p : Node.Provider C E) (key : String)
    (g : Node.Group) (pid n : Nat)
    (hg : assocLookup p.groups g = some pid)
    (hurl : p.route g key ≠ "")
    (hnode : assocLookup (Node.poolOf p pid) (Node.Url2NodeName (p.route g key)) = none)
    (hn : 1 ≤ n) :
    (Node.getClientConcurrent p key g n).2.2 = 1 ∧
    ∃ out, (Node.getClientConcurrent p key g n).1 = List.replicate n out := by
  have hn0 : ¬ n = 0 := by omega
  cases hf : p.factory p.invocations (p.route g key) with
  | ok c =>
    refine ⟨?_, Except.ok c, ?_⟩ <;>
      simp [Node.getClientConcurrent, hg, hurl, hnode, Node.concurrentLoadOrStore, hn0, hf,
        Node.wrapBadConnection]
  | error e =>
    refine ⟨?_, Except.error (Node.ProviderError.badConnection e), ?_⟩ <;>
      simp [Node.getClientConcurrent, hg, hurl, hnode, Node.concurrentLoadOrStore, hn0, hf,
        Node.wrapBadConnection]

/-- Witness for C1 at a concrete provider with 3 concurrent callers. -/
theorem C1_witness :
    1 ≤ 3 ∧
    ((Node.getClientConcurrent Examples.pOk "key1" "cfxhttp" 3).2.2 = 1 ∧
     ∃ out, (Node.getClientConcurrent Examples.pOk "key1" "cfxhttp" 3).1 =
       List.replicate 3 out) :=
  ⟨by decide,
   C1_at_most_one_creation Examples.pOk "key1" "cfxhttp" 0 3 (by decide) (by decide)
     (by decide) (by decide)⟩

/-- Claim C2: for a registered group, when `Router.Route` returns the
empty string, `getClient` returns `ErrClientUnavailable`, performs zero
factory invocations, leaves the provider state unchanged, and that error
is distinguishable from connection-creation failures. -/
theorem C2_routing_failure_isolation {C E : Type} (p : Node.Provider C E) (key : String)
    (g : Node.Group) (pid : Nat)
    (hg : assocLookup p.groups g = some pid)
    (hroute : p.route g key = "") :
    (Node.getClient p key g).1 = Except.error Node.ProviderError.clientUnavailable ∧
    (Node.getClient p key g).2.2.1 = 0 ∧
    (Node.getClient p key g).2.1 = p ∧
    ∀ e : E, (Node.ProviderError.clientUnavailable : Node.ProviderError E) ≠
      Node.ProviderError.badConnection e := by
  refine ⟨?_, ?_, ?_, fun e h => ?_⟩ <;>
    simp_all [Node.getClient, hg, hroute]

/-- Witness for C2 at a concrete provider whose router returns "". -/
theorem C2_witness :
    (Node.getClient Examples.pNoRoute "k" "cfxhttp").1 =
      Except.error Node.ProviderError.clientUnavailable ∧
    (Node.getClient Examples.pNoRoute "k" "cfxhttp").2.2.1 = 0 :=
  ⟨(C2_routing_failure_isolation Examples.pNoRoute "k" "cfxhttp" 0 (by decide) rfl).1,
   (C2_routing_failure_isolation Examples.pNoRoute "k" "cfxhttp" 0 (by decide) rfl).2.1⟩

/-- Claim C3: for a group never registered, `getClient` returns the
`unknownGroup` error, never calls `Router.Route`, performs zero factory
invocations, and leaves the provider (in particular the group-to-pool
map) unchanged. -/
theorem C3_unknown_group {C E : Type} (p : Node.Provider C E) (key : String)
    (g : Node.Group) (hg : assocLookup p.groups g = none) :
    (Node.getClient p key g).1 = Except.error (Node.ProviderError.unknownGroup g) ∧
    (Node.getClient p key g).2.2.2 = 0 ∧
    (Node.getClient p key g).2.2.1 = 0 ∧
    (Node.getClient p key g).2.1 = p := by
  refine ⟨?_, ?_, ?_, ?_⟩ <;> simp [Node.getClient, hg]

/-- Witness for C3 at a concrete provider and an unregistered group. -/
theorem C3_witness :
    (Node.getClient Examples.pOk "k" "ethhttp").1 =
      Except.error (Node.ProviderError.unknownGroup "ethhttp") ∧
    (Node.getClient Examples.pOk "k" "ethhttp").2.2.2 = 0 :=
  ⟨(C3_unknown_group Examples.pOk "k" "ethhttp" (by decide)).1,
   (C3_unknown_group Examples.pOk "k" "ethhttp" (by decide)).2.1⟩

/-- Claim C4: when the factory fails, `getClient` returns an error
wrapping the underlying cause and caches nothing for that node-name
(the pools are unchanged); with a factory that fails once then
succeeds, the second `getClient` call for the same node-name invokes
the factory again and returns the freshly created client. -/
theorem C4_retry_after_failure {C E : Type} (p : Node.Provider C E) (key : String)
    (g : Node.Group) (pid : Nat) (e : E) (c : C)
    (hg : assocLookup p.groups g = some pid)
    (hurl : p.route g key ≠ "")
    (hnode : assocLookup (Node.poolOf p pid) (Node.Url2NodeName (p.route g key)) = none)
    (hf1 : p.factory p.invocations (p.route g key) = Except.error e)
    (hf2 : p.factory (p.invocations + 1) (p.route g key) = Except.ok c) :
    (Node.getClient p key g).1 = Except.error (Node.ProviderError.badConnection e) ∧
    (Node.getClient p key g).2.2.1 = 1 ∧
    ((Node.getClient p key g).2.1).pools = p.pools ∧
    (Node.getClient ((Node.getClient p key g).2.1) key g).1 = Except.ok c ∧
    (Node.getClient ((Node.getClient p key g).2.1) key g).2.2.1 = 1 := by
  have h1 : Node.getClient p key g =
      (Except.error (Node.ProviderError.badConnection e),
       { p with invocations := p.invocations + 1 }, 1, 1) := by
    simp [Node.getClient, hg, hurl, Node.loadOrStoreFnErr, hnode, hf1]
  have h2 : Node.getClient { p with invocations := p.invocations + 1 } key g =
      (Except.ok c,
       { p with
         pools := assocSet p.pools pid
           (assocSet (Node.poolOf p pid) (Node.Url2NodeName (p.route g key)) c)
         invocations := p.invocations + 1 + 1 }, 1, 1) := by
    simp [Node.getClient, hg, hurl, Node.loadOrStoreFnErr, Node.poolOf, hf2]
    simp only [Node.poolOf] at hnode
    simp [hnode, hf2]
  rw [h1]
  refine ⟨rfl, rfl, rfl, ?_, ?_⟩ <;> rw [h2]

/-- Witness for C4 at a concrete provider whose factory fails once then
succeeds. -/
theorem C4_witness :
    (Node.getClient Examples.pFailOnce "k" "cfxhttp").1 =
      Except.error (Node.ProviderError.badConnection "dial tcp: connection refused") ∧
    (Node.getClient ((Node.getClient Examples.pFailOnce "k" "cfxhttp").2.1) "k" "cfxhttp").1 =
      Except.ok 42 :=
  ⟨(C4_retry_after_failure Examples.pFailOnce "k" "cfxhttp" 0
      "dial tcp: connection refused" 42 (by decide) (by decide) (by decide) rfl rfl).1,
   (C4_retry_after_failure Examples.pFailOnce "k" "cfxhttp" 0
      "dial tcp: connection refused" 42 (by decide) (by decide) (by decide) rfl rfl).2.2.2.1⟩

/-- Claim C5: `registerGroup` is idempotent: any `n ≥ 1` calls for the
same group return the same pool identifier and final state as a single
call, that pool stays associated with the group, and `getClient` never
adds or replaces an entry in the group-to-pool map. -/
theorem C5_register_group_idempotent {C E : Type} (p : Node.Provider C E)
    (g : Node.Group) (n : Nat) (hn : 1 ≤ n) :
    Node.registerN p g n = Node.registerGroup p g ∧
    Node.registerGroup (Node.registerGroup p g).2 g = Node.registerGroup p g ∧
    assocLookup ((Node.registerGroup p g).2).groups g = some (Node.registerGroup p g).1 ∧
    ∀ (q : Node.Provider C E) (key : String) (grp : Node.Group),
      ((Node.getClient q key grp).2.1).groups = q.groups :=
  ⟨registerN_eq p g n hn, registerGroup_idem p g, registerGroup_lookup p g,
   fun q key grp => getClient_groups_eq q key grp⟩

/-- Witness for C5: three registrations of a fresh group on a concrete
provider collapse to a single one. -/
theorem C5_witness :
    1 ≤ 3 ∧
    Node.registerN Examples.pOk "ethhttp" 3 = Node.registerGroup Examples.pOk "ethhttp" ∧
    assocLookup ((Node.registerGroup Examples.pOk "ethhttp").2).groups "ethhttp" =
      some (Node.registerGroup Examples.pOk "ethhttp").1 :=
  ⟨by decide,
   (C5_register_group_idempotent Examples.pOk "ethhttp" 3 (by decide)).1,
   (C5_register_group_idempotent Examples.pOk "ethhttp" 3 (by decide)).2.2.1⟩

/-- Claim C6 counterexample: `MustNewNativeSpaceBridgeServer` returns a
server bound to `core_space_bridge_rpc` but with an empty middleware
list — the source calls `rpc.MustNewServer(name, exposedApis)` with no
middleware argument — refuting the claim that each of the three
assembly functions attaches the middleware chain. -/
theorem C6_counterexample :
    Rpc.MustNewNativeSpaceBridgeServer (Except.ok Examples.demoApis) [] =
      Except.ok (Rpc.Server.mk "core_space_bridge_rpc"
        [Rpc.API.mk "cfx" true, Rpc.API.mk "txpool" true] []) := rfl

/-- Claim C6 (amended): `MustNewNativeSpaceServer` and
`MustNewEvmSpaceServer` attach the middleware chain (rate-limit
registry plus client provider) and return servers bound to
`core_space_rpc` and `evm_space_rpc`; `MustNewNativeSpaceBridgeServer`
returns a server bound to `core_space_bridge_rpc` with no middleware
attached. -/
theorem C6_amended_server_assembly (allApis : List Rpc.API) (ms : List String)
    (filtered : List Rpc.API)
    (hf : Rpc.filterExposedApis allApis ms = Except.ok filtered) :
    Rpc.MustNewNativeSpaceServer allApis ms =
      Except.ok (Rpc.Server.mk "core_space_rpc" filtered
        [Rpc.Middleware.http "DefaultRegistryCfx" "CfxClientProvider"]) ∧
    Rpc.MustNewEvmSpaceServer (Except.ok allApis) ms =
      Except.ok (Rpc.Server.mk "evm_space_rpc" filtered
        [Rpc.Middleware.http "DefaultRegistryEth" "EthClientProvider"]) ∧
    Rpc.MustNewNativeSpaceBridgeServer (Except.ok allApis) ms =
      Except.ok (Rpc.Server.mk "core_space_bridge_rpc" filtered []) := by
  refine ⟨?_, ?_, ?_⟩ <;>
    simp [Rpc.MustNewNativeSpaceServer, Rpc.MustNewEvmSpaceServer,
      Rpc.MustNewNativeSpaceBridgeServer, Rpc.MustNewServer, hf,
      Rpc.nativeSpaceRpcServerName, Rpc.evmSpaceRpcServerName,
      Rpc.nativeSpaceBridgeRpcServerName]

/-- Witness for the amended C6 at a concrete module set and allow-list. -/
theorem C6_amended_witness :
    Rpc.filterExposedApis Examples.demoApis ["cfx"] =
      Except.ok [Rpc.API.mk "cfx" true] ∧
    Rpc.MustNewNativeSpaceServer Examples.demoApis ["cfx"] =
      Except.ok (Rpc.Server.mk "core_space_rpc" [Rpc.API.mk "cfx" true]
        [Rpc.Middleware.http "DefaultRegistryCfx" "CfxClientProvider"]) :=
  ⟨rfl,
   (C6_amended_server_assembly Examples.demoApis ["cfx"]
     [Rpc.API.mk "cfx" true] rfl).1⟩

/-- Claim C7: the exposed-module filter applied at server assembly
keeps, for a non-empty allow-list naming only known modules, exactly
the modules whose names appear in the list; for an allow-list naming an
unknown module, assembly fails before any server is returned (for all
three assembly functions); for an empty allow-list it keeps exactly the
modules marked publicly exposable. -/
theorem C7_exposed_module_filter (allApis : List Rpc.API) (ms : List String) :
    (ms = [] → Rpc.filterExposedApis allApis ms =
      Except.ok (allApis.filter (fun a => a.isPublic))) ∧
    (ms ≠ [] → (∀ m ∈ ms, ∃ a ∈ allApis, a.name = m) →
      Rpc.filterExposedApis allApis ms =
        Except.ok (allApis.filter (fun a => ms.contains a.name))) ∧
    (ms ≠ [] → (∃ m ∈ ms, ∀ a ∈ allApis, a.name ≠ m) →
      Rpc.filterExposedApis allApis ms = Except.error "unknown exposed module" ∧
      Rpc.MustNewNativeSpaceServer allApis ms = Except.error "unknown exposed module" ∧
      Rpc.MustNewEvmSpaceServer (Except.ok allApis) ms =
        Except.error "unknown exposed module" ∧
      Rpc.MustNewNativeSpaceBridgeServer (Except.ok allApis) ms =
        Except.error "unknown exposed module") := by
  refine ⟨fun hms => ?_, fun hne hall => ?_, fun hne hex => ?_⟩
  · simp [Rpc.filterExposedApis, hms]
  · have hemp : ms.isEmpty = false := by cases ms with
      | nil => exact absurd rfl hne
      | cons m ms2 => rfl
    have hcond : ms.all (fun m => allApis.any (fun a => a.name == m)) = true := by
      simp only [List.all_eq_true, List.any_eq_true, beq_iff_eq]
      exact hall
    simp [Rpc.filterExposedApis, hemp, hcond]
  · have hemp : ms.isEmpty = false := by cases ms with
      | nil => exact absurd rfl hne
      | cons m ms2 => rfl
    have hcond : ms.all (fun m => allApis.any (fun a => a.name == m)) = false := by
      rw [Bool.eq_false_iff]
      intro hallb
      simp only [List.all_eq_true, List.any_eq_true, beq_iff_eq] at hallb
      obtain ⟨m, hm, hnone⟩ := hex
      obtain ⟨a, ha, heq⟩ := hallb m hm
      exact hnone a ha heq
    have hfe : Rpc.filterExposedApis allApis ms = Except.error "unknown exposed module" := by
      simp [Rpc.filterExposedApis, hemp, hcond]
    refine ⟨hfe, ?_, ?_, ?_⟩ <;>
      simp [Rpc.MustNewNativeSpaceServer, Rpc.MustNewEvmSpaceServer,
        Rpc.MustNewNativeSpaceBridgeServer, hfe]

/-- Witness for C7 at a concrete module set, exercising the non-empty
known allow-list case. -/
theorem C7_witness :
    (["cfx"] : List String) ≠ [] ∧
    Rpc.filterExposedApis Examples.demoApis ["cfx"] =
      Except.ok [Rpc.API.mk "cfx" true] :=
  ⟨by decide,
   (C7_exposed_module_filter Examples.demoApis ["cfx"]).2.1 (by decide) (by decide)⟩

/-- Claim C8: evaluation of the startup code at the failing input.
When `db.DB()` fails inside `mustCreateDatabaseIfAbsent`, the function
swallows the error and returns `false` (database treated as already
existing), and `MustOpenOrCreate` proceeds to return a store instead of
terminating — even though the very same handle error on the main open
path is fatal (`"Failed to init mysql db"`).  This contradicts the
claim (and the function's own doc comment, "creates an instance of
store or exits on any erorr"). -/
theorem C8_swallowed_startup_error :
    Mysql.mustCreateDatabaseIfAbsent Examples.envSwallowed = Mysql.Startup.ok false ∧
    Mysql.MustOpenOrCreate Examples.envSwallowed = Mysql.Startup.ok () ∧
    Mysql.MustOpenOrCreate Examples.envHandleErrMain =
      Mysql.Startup.fatal "Failed to init mysql db" :=
  ⟨rfl, rfl, rfl⟩

/-- Claim C9: the logs-table partitioning statement consists of the
range-partitioning header over `id`, exactly `n` partition lines where
partition `i` is bounded above by `(i+1)*rangeSize` — so consecutive
partitions cover equal-size contiguous id ranges — followed by exactly
one overflow partition bounded by `MAXVALUE`. -/
theorem C9_logs_partitions (n rs : Nat) :
    Mysql.initLogsPartitionsLines n rs =
      Mysql.LogsPartitionHeader ::
        ((List.range n).map (fun i => Mysql.logsPartitionLine i rs) ++
          [Mysql.logsOverflowLine]) ∧
    (Mysql.initLogsPartitionsLines n rs).length = n + 2 ∧
    (∀ i, i < n → (Mysql.initLogsPartitionsLines n rs).get? (i + 1) =
      some (Mysql.logsPartitionLine i rs)) ∧
    (∀ i, Mysql.logsPartitionBound (i + 1) rs = Mysql.logsPartitionBound i rs + rs) := by
  have hstruct : Mysql.initLogsPartitionsLines n rs =
      Mysql.LogsPartitionHeader ::
        ((List.range n).map (fun i => Mysql.logsPartitionLine i rs) ++
          [Mysql.logsOverflowLine]) := by
    unfold Mysql.initLogsPartitionsLines
    rw [foldl_push_eq_append_map (fun i => Mysql.logsPartitionLine i rs) (List.range n)
      [Mysql.LogsPartitionHeader]]
    simp
  refine ⟨hstruct, ?_, ?_, ?_⟩
  · rw [hstruct]
    simp
  · intro i hi
    rw [hstruct]
    rw [List.get?_cons_succ]
    rw [List.get?_append (by simpa using hi)]
    rw [List.get?_map, List.get?_range hi]
    rfl
  · intro i
    unfold Mysql.logsPartitionBound
    ring

/-- Witness for C9 at 3 partitions of range size 10: the third line of
the statement is the partition-1 line, bounded above by 20. -/
theorem C9_witness :
    1 < 3 ∧
    (Mysql.initLogsPartitionsLines 3 10).get? 2 = some (Mysql.logsPartitionLine 1 10) :=
  ⟨by decide, (C9_logs_partitions 3 10).2.2.1 1 (by decide)⟩

/-- Claim C10: `Pushn` with an empty slice returns nil without any
database write; for a non-empty slice in which every epoch has at least
one block it performs one `CreateInBatches` write with exactly one
record per epoch — `Epoch` the epoch number, `BnMin` the first block's
number, `BnMax` the pivot block's number, `PivotHash` the pivot block's
hash — at batch size 1000; and any epoch with no blocks makes `Pushn`
panic on the unguarded index access. -/
theorem C10_pushn_behaviour (ds : List Mysql.EpochData) :
    Mysql.Pushn [] = Mysql.PushnResult.noWrite ∧
    (ds ≠ [] → (∀ d ∈ ds, d.Blocks ≠ []) →
      Mysql.Pushn ds = Mysql.PushnResult.wrote (ds.map Mysql.mappingOf)
        Mysql.defaultBatchSizeMappingInsert) ∧
    ((∃ d ∈ ds, d.Blocks = []) →
      Mysql.Pushn ds = Mysql.PushnResult.panicked "runtime error: index out of range") := by
  refine ⟨rfl, fun hne hall => ?_, fun hex => ?_⟩
  · have hb := buildMappings_ok ds hall
    cases ds with
    | nil => exact absurd rfl hne
    | cons d rest =>
      simp only [Mysql.Pushn, hb, List.map_cons]
  · simp [Mysql.Pushn, buildMappings_panics ds hex]

/-- Witness for C10 at one concrete epoch with two blocks: one record
with `BnMin` the first block's number, `BnMax` and `PivotHash` from the
last (pivot) block, written at batch size 1000. -/
theorem C10_witness :
    Examples.demoEpoch.Blocks ≠ [] ∧
    Mysql.Pushn [Examples.demoEpoch] =
      Mysql.PushnResult.wrote [Mysql.epochBlockMap.mk 5 1 2 "h2"] 1000 :=
  ⟨by decide,
   (C10_pushn_behaviour [Examples.demoEpoch]).2.1 (by decide) (by decide)⟩
